import Mathlib

/-!
Verification of the Pomodoro cycle state machine from `pomodoro.py`.

The timer logic of the widget is embedded shallowly: the mutable fields of
the `UltimatePomodoro` widget that the timer logic touches become a
`TimerState` structure, and each method becomes a pure function on it.
Python integers are modelled as `Int`.  The observable side effects of
`finish_cycle` (starting the alarm, showing the notification dialog,
stopping the alarm after the dialog is dismissed) are modelled as an event
trace returned next to the new state.
-/

/-- The two timer modes; the source stores them as the strings
"WORK" and "BREAK". -/
inductive Mode where
  | WORK : Mode
  | BREAK : Mode
deriving DecidableEq, Repr

/-- Observable effects of `finish_cycle`: `audio_mgr.play` at the start,
the `ThemeDialog` with its title and message (whose `exec` blocks until the
user acknowledges it), and `audio_mgr.stop` afterwards. -/
inductive Event where
  | alarmStart : Event
  | notify : String → String → Event
  | alarmStop : Event
deriving DecidableEq, Repr

/-- The timer-related mutable fields of the widget.  Durations are in
minutes, times in seconds, matching the source. -/
structure TimerState where
  mode : Mode
  work_duration : Int
  break_duration : Int
  total_time : Int
  current_time : Int
  is_running : Bool
  current_cycle : Int
  target_cycles : Int
deriving DecidableEq, Repr

/-- The initial field values set in `__init__` for persisted configuration
`w` (work minutes), `b` (break minutes), `c` (target cycles):
`total_time = work_duration * 60`, `current_time = total_time`,
`is_running = False`, `mode = "WORK"`, `current_cycle = 1`. -/
def initState (w b c : Int) : TimerState :=
  { mode := Mode.WORK
    work_duration := w
    break_duration := b
    total_time := w * 60
    current_time := w * 60
    is_running := false
    current_cycle := 1
    target_cycles := c }

/-- Model of `finish_cycle`: sets `is_running = False`, plays the alarm, branches on
the mode (and, in BREAK, on `current_cycle >= target_cycles`) to build the
notification text and the next state, shows the dialog, and stops the alarm
once the dialog is dismissed. -/
def finish_cycle (s : TimerState) : TimerState × List Event :=
  let s0 : TimerState := { s with is_running := false }
  match s0.mode with
  | Mode.WORK =>
      let title := "专注结束"
      let msg := "当前是第 " ++ toString s0.current_cycle ++ " / " ++
        toString s0.target_cycles ++ " 轮专注！\n现在放松一下喝口水吧~ 🥤"
      let s1 : TimerState :=
        { s0 with mode := Mode.BREAK
                  total_time := s0.break_duration * 60
                  current_time := s0.break_duration * 60
                  is_running := true }
      (s1, [Event.alarmStart, Event.notify title msg, Event.alarmStop])
  | Mode.BREAK =>
      if s0.current_cycle ≥ s0.target_cycles then
        let title := "恭喜！🎉"
        let msg := "真棒！你在成为更好的自己！\n今日专注计划已完成。"
        let s1 : TimerState :=
          { s0 with current_cycle := 1
                    mode := Mode.WORK
                    total_time := s0.work_duration * 60
                    current_time := s0.work_duration * 60
                    is_running := false }
        (s1, [Event.alarmStart, Event.notify title msg, Event.alarmStop])
      else
        let title := "准备开始"
        let msg := "休息结束，电量充满！\n准备进入下一轮专注。💪"
        let s1 : TimerState :=
          { s0 with current_cycle := s0.current_cycle + 1
                    mode := Mode.WORK
                    total_time := s0.work_duration * 60
                    current_time := s0.work_duration * 60
                    is_running := true }
        (s1, [Event.alarmStart, Event.notify title msg, Event.alarmStop])

/-- Model of `tick_timer`: if running, decrement `current_time` by 1 and call
`finish_cycle` when the result is `<= 0`.  The event list records the
effects of the `finish_cycle` call, when one happened. -/
def tick_timer (s : TimerState) : TimerState × List Event :=
  if s.is_running then
    let s1 : TimerState := { s with current_time := s.current_time - 1 }
    if s1.current_time ≤ 0 then finish_cycle s1
    else (s1, [])
  else (s, [])

/-- Model of `toggle_timer`: `self.is_running = not self.is_running`. -/
def toggle_timer (s : TimerState) : TimerState :=
  { s with is_running := !s.is_running }

/-- Model of `reset_timer`: stop, reseed `total_time` from the current mode's
configured duration, and set `current_time` to it. -/
def reset_timer (s : TimerState) : TimerState :=
  let duration := match s.mode with
    | Mode.WORK => s.work_duration
    | Mode.BREAK => s.break_duration
  { s with is_running := false
           total_time := duration * 60
           current_time := duration * 60 }

/-- Model of `set_work_time`: the input dialog only returns values in `[1, 120]`
(its min/max arguments); an out-of-range request is a cancelled dialog and
changes nothing.  On acceptance the duration is stored and, when the active
mode is WORK, the timer is reset. -/
def set_work_time (s : TimerState) (t : Int) : TimerState :=
  if 1 ≤ t ∧ t ≤ 120 then
    let s1 : TimerState := { s with work_duration := t }
    match s1.mode with
    | Mode.WORK => reset_timer s1
    | Mode.BREAK => s1
  else s

/-- Model of `set_break_time`: dialog bounds `[1, 60]`; on acceptance the duration
is stored and, when the active mode is BREAK, the timer is reset. -/
def set_break_time (s : TimerState) (t : Int) : TimerState :=
  if 1 ≤ t ∧ t ≤ 60 then
    let s1 : TimerState := { s with break_duration := t }
    match s1.mode with
    | Mode.WORK => s1
    | Mode.BREAK => reset_timer s1
  else s

/-- Model of `set_total_cycles`: dialog bounds `[1, 20]`; on acceptance the target
is stored and `current_cycle` is set back to 1. -/
def set_total_cycles (s : TimerState) (c : Int) : TimerState :=
  if 1 ≤ c ∧ c ≤ 20 then
    { s with target_cycles := c
             current_cycle := 1 }
  else s

/-- Iterating the logic tick `n` times (dropping the event traces). -/
def tickIter : Nat → TimerState → TimerState
  | 0, s => s
  | n + 1, s => tickIter n (tick_timer s).1

/-- Counts the notification dialogs in an event trace. -/
def notifyCount (es : List Event) : Nat :=
  es.countP fun e => match e with
    | Event.notify _ _ => true
    | _ => false

/-- States reachable from the initial state (with any in-bounds persisted
configuration) by the timer operations; the configure operations take the
requested value, rejection being a no-op. -/
inductive Reachable : TimerState → Prop where
  | init (w b c : Int) (hw : 1 ≤ w ∧ w ≤ 120) (hb : 1 ≤ b ∧ b ≤ 60)
      (hc : 1 ≤ c ∧ c ≤ 20) : Reachable (initState w b c)
  | tick {s : TimerState} : Reachable s → Reachable (tick_timer s).1
  | toggle {s : TimerState} : Reachable s → Reachable (toggle_timer s)
  | reset {s : TimerState} : Reachable s → Reachable (reset_timer s)
  | finish {s : TimerState} : Reachable s → Reachable (finish_cycle s).1
  | confWork {s : TimerState} (t : Int) : Reachable s → Reachable (set_work_time s t)
  | confBreak {s : TimerState} (t : Int) : Reachable s → Reachable (set_break_time s t)
  | confCycles {s : TimerState} (c : Int) : Reachable s → Reachable (set_total_cycles s c)

/-- The state invariant (TimerInv) maintained by every operation: configured durations
and the target stay within the dialog bounds, the cycle counter stays in
`[1, target_cycles]`, and the remaining time stays in `[0, total_time]`. -/
def TimerInv (s : TimerState) : Prop :=
  1 ≤ s.work_duration ∧ s.work_duration ≤ 120 ∧
  1 ≤ s.break_duration ∧ s.break_duration ≤ 60 ∧
  1 ≤ s.current_cycle ∧ s.current_cycle ≤ s.target_cycles ∧ s.target_cycles ≤ 20 ∧
  0 ≤ s.current_time ∧ s.current_time ≤ s.total_time

/-- A (unreachable) probe state: running with `current_time` already 0. -/
def tickZeroState : TimerState :=
  { mode := Mode.WORK
    work_duration := 1
    break_duration := 1
    total_time := 60
    current_time := 0
    is_running := true
    current_cycle := 1
    target_cycles := 1 }

/-- Mid-plan state: third of four cycles, nine minutes left of WORK. -/
def midPlanState : TimerState :=
  { mode := Mode.WORK
    work_duration := 25
    break_duration := 5
    total_time := 1500
    current_time := 900
    is_running := true
    current_cycle := 3
    target_cycles := 4 }

/-- A paused BREAK-mode state with a 5-minute break configured. -/
def breakModeState : TimerState :=
  { mode := Mode.BREAK
    work_duration := 25
    break_duration := 5
    total_time := 300
    current_time := 300
    is_running := false
    current_cycle := 1
    target_cycles := 4 }

/-- Running WORK state one second before the segment expires, with a
2-minute break configured. -/
def lastSecondState : TimerState :=
  { mode := Mode.WORK
    work_duration := 1
    break_duration := 2
    total_time := 60
    current_time := 1
    is_running := true
    current_cycle := 1
    target_cycles := 2 }

lemma timerInv_finish {s : TimerState} (hw1 : 1 ≤ s.work_duration)
    (hw2 : s.work_duration ≤ 120) (hb1 : 1 ≤ s.break_duration)
    (hb2 : s.break_duration ≤ 60) (hc1 : 1 ≤ s.current_cycle)
    (hc2 : s.current_cycle ≤ s.target_cycles) (ht : s.target_cycles ≤ 20) :
    TimerInv (finish_cycle s).1 := by
  cases hm : s.mode
  · simp [finish_cycle, hm, TimerInv]
    omega
  · by_cases hge : s.current_cycle ≥ s.target_cycles
    · simp [finish_cycle, hm, hge, TimerInv]
      omega
    · simp [finish_cycle, hm, hge, TimerInv]
      omega

lemma timerInv_tick {s : TimerState} (h : TimerInv s) :
    TimerInv (tick_timer s).1 := by
  by_cases hr : s.is_running
  · by_cases hz : s.current_time - 1 ≤ 0
    · have : (tick_timer s).1 =
          (finish_cycle { s with current_time := s.current_time - 1 }).1 := by
        simp [tick_timer, hr, hz]
      rw [this]
      obtain ⟨hw1, hw2, hb1, hb2, hc1, hc2, ht, hct0, hct1⟩ := h
      exact timerInv_finish (by simpa) (by simpa) (by simpa) (by simpa)
        (by simpa) (by simpa) (by simpa)
    · have : (tick_timer s).1 = { s with current_time := s.current_time - 1 } := by
        simp [tick_timer, hr, hz]
      rw [this]
      obtain ⟨hw1, hw2, hb1, hb2, hc1, hc2, ht, hct0, hct1⟩ := h
      exact ⟨hw1, hw2, hb1, hb2, hc1, hc2, ht, by simp; omega, by simp; omega⟩
  · simp [tick_timer, hr]
    exact h

lemma timerInv_toggle {s : TimerState} (h : TimerInv s) :
    TimerInv (toggle_timer s) := by
  obtain ⟨hw1, hw2, hb1, hb2, hc1, hc2, ht, hct0, hct1⟩ := h
  exact ⟨hw1, hw2, hb1, hb2, hc1, hc2, ht, hct0, hct1⟩

lemma timerInv_reset {s : TimerState} (h : TimerInv s) :
    TimerInv (reset_timer s) := by
  obtain ⟨hw1, hw2, hb1, hb2, hc1, hc2, ht, hct0, hct1⟩ := h
  cases hm : s.mode <;> simp [reset_timer, hm, TimerInv] <;> omega

lemma timerInv_set_work {s : TimerState} (t : Int) (h : TimerInv s) :
    TimerInv (set_work_time s t) := by
  obtain ⟨hw1, hw2, hb1, hb2, hc1, hc2, ht, hct0, hct1⟩ := h
  by_cases hok : 1 ≤ t ∧ t ≤ 120
  · cases hm : s.mode <;>
      simp [set_work_time, hok, hm, reset_timer, TimerInv] <;> omega
  · simp [set_work_time, hok]
    exact ⟨hw1, hw2, hb1, hb2, hc1, hc2, ht, hct0, hct1⟩

lemma timerInv_set_break {s : TimerState} (t : Int) (h : TimerInv s) :
    TimerInv (set_break_time s t) := by
  obtain ⟨hw1, hw2, hb1, hb2, hc1, hc2, ht, hct0, hct1⟩ := h
  by_cases hok : 1 ≤ t ∧ t ≤ 60
  · cases hm : s.mode <;>
      simp [set_break_time, hok, hm, reset_timer, TimerInv] <;> omega
  · simp [set_break_time, hok]
    exact ⟨hw1, hw2, hb1, hb2, hc1, hc2, ht, hct0, hct1⟩

lemma timerInv_set_cycles {s : TimerState} (c : Int) (h : TimerInv s) :
    TimerInv (set_total_cycles s c) := by
  obtain ⟨hw1, hw2, hb1, hb2, hc1, hc2, ht, hct0, hct1⟩ := h
  by_cases hok : 1 ≤ c ∧ c ≤ 20
  · simp [set_total_cycles, hok, TimerInv]
    omega
  · simp [set_total_cycles, hok]
    exact ⟨hw1, hw2, hb1, hb2, hc1, hc2, ht, hct0, hct1⟩

lemma timerInv_init {w b c : Int} (hw : 1 ≤ w ∧ w ≤ 120) (hb : 1 ≤ b ∧ b ≤ 60)
    (hc : 1 ≤ c ∧ c ≤ 20) : TimerInv (initState w b c) := by
  simp [initState, TimerInv]
  omega

/-- Every reachable state satisfies the invariant. -/
lemma timerInv_of_reachable {s : TimerState} (h : Reachable s) : TimerInv s := by
  induction h with
  | init w b c hw hb hc => exact timerInv_init hw hb hc
  | tick _ ih => exact timerInv_tick ih
  | toggle _ ih => exact timerInv_toggle ih
  | reset _ ih => exact timerInv_reset ih
  | finish _ ih =>
      obtain ⟨hw1, hw2, hb1, hb2, hc1, hc2, ht, hct0, hct1⟩ := ih
      exact timerInv_finish hw1 hw2 hb1 hb2 hc1 hc2 ht
  | confWork t _ ih => exact timerInv_set_work t ih
  | confBreak t _ ih => exact timerInv_set_break t ih
  | confCycles c _ ih => exact timerInv_set_cycles c ih

/-- Tick sequences stay reachable. -/
lemma reachable_tickIter {s : TimerState} (h : Reachable s) (n : Nat) :
    Reachable (tickIter n s) := by
  induction n generalizing s with
  | zero => exact h
  | succ n ih => exact ih (Reachable.tick h)

/-- The trace of a `finish_cycle` call is always alarm-start, one
notification dialog, alarm-stop. -/
lemma finish_cycle_trace (s : TimerState) :
    ∃ t m, (finish_cycle s).2 =
      [Event.alarmStart, Event.notify t m, Event.alarmStop] := by
  cases hm : s.mode with
  | WORK =>
      refine ⟨"专注结束", "当前是第 " ++ toString s.current_cycle ++ " / " ++
        toString s.target_cycles ++ " 轮专注！\n现在放松一下喝口水吧~ 🥤", ?_⟩
      simp [finish_cycle, hm]
  | BREAK =>
      by_cases hge : s.current_cycle ≥ s.target_cycles
      · refine ⟨"恭喜！🎉", "真棒！你在成为更好的自己！\n今日专注计划已完成。", ?_⟩
        simp [finish_cycle, hm, hge]
      · refine ⟨"准备开始", "休息结束，电量充满！\n准备进入下一轮专注。💪", ?_⟩
        simp [finish_cycle, hm, hge]

/-- Every `finish_cycle` call shows exactly one notification dialog. -/
lemma notifyCount_finish (s : TimerState) : notifyCount (finish_cycle s).2 = 1 := by
  obtain ⟨t, m, h⟩ := finish_cycle_trace s
  rw [h]
  rfl

/-- C1: `finish_cycle` implements the transition table: from WORK it always
moves to BREAK with `is_running = true` and `current_cycle` unchanged; from
BREAK with `current_cycle < target_cycles` it moves to WORK with the cycle
incremented and `is_running = true`; from BREAK with
`current_cycle >= target_cycles` it moves to WORK with the cycle reset to 1
and `is_running = false`; in every case `total_time` becomes the new mode's
configured duration in seconds and `current_time = total_time`. -/
theorem finish_cycle_transition_table (s : TimerState) :
    (s.mode = Mode.WORK →
      (finish_cycle s).1.mode = Mode.BREAK ∧
      (finish_cycle s).1.is_running = true ∧
      (finish_cycle s).1.current_cycle = s.current_cycle ∧
      (finish_cycle s).1.total_time = s.break_duration * 60 ∧
      (finish_cycle s).1.current_time = (finish_cycle s).1.total_time) ∧
    (s.mode = Mode.BREAK → s.current_cycle < s.target_cycles →
      (finish_cycle s).1.mode = Mode.WORK ∧
      (finish_cycle s).1.is_running = true ∧
      (finish_cycle s).1.current_cycle = s.current_cycle + 1 ∧
      (finish_cycle s).1.total_time = s.work_duration * 60 ∧
      (finish_cycle s).1.current_time = (finish_cycle s).1.total_time) ∧
    (s.mode = Mode.BREAK → s.current_cycle ≥ s.target_cycles →
      (finish_cycle s).1.mode = Mode.WORK ∧
      (finish_cycle s).1.is_running = false ∧
      (finish_cycle s).1.current_cycle = 1 ∧
      (finish_cycle s).1.total_time = s.work_duration * 60 ∧
      (finish_cycle s).1.current_time = (finish_cycle s).1.total_time) := by
  refine ⟨?_, ?_, ?_⟩
  · intro hm
    simp [finish_cycle, hm]
  · intro hm hlt
    have hge : ¬ s.current_cycle ≥ s.target_cycles := by omega
    simp [finish_cycle, hm, hge]
  · intro hm hge
    simp [finish_cycle, hm, hge]

/-- C1 witness: at the default initial state (mode WORK) the WORK row of
the table holds concretely. -/
theorem finish_cycle_transition_table_witness :
    (finish_cycle (initState 25 5 4)).1.mode = Mode.BREAK ∧
    (finish_cycle (initState 25 5 4)).1.is_running = true ∧
    (finish_cycle (initState 25 5 4)).1.current_cycle = (initState 25 5 4).current_cycle ∧
    (finish_cycle (initState 25 5 4)).1.total_time = (initState 25 5 4).break_duration * 60 ∧
    (finish_cycle (initState 25 5 4)).1.current_time = (finish_cycle (initState 25 5 4)).1.total_time :=
  (finish_cycle_transition_table (initState 25 5 4)).1 rfl

/-- C2 counterexample: at a (valid-typed, though unreachable) state that is
running with `current_time = 0`, the tick decrements to -1 — which does not
reach 0 — yet `finish_cycle` is still invoked (its notification fires),
because the source tests `current_time <= 0`, not `== 0`. -/
theorem tick_finishes_without_reaching_zero :
    tickZeroState.is_running = true ∧
    tickZeroState.current_time - 1 ≠ 0 ∧
    notifyCount (tick_timer tickZeroState).2 = 1 := by
  refine ⟨rfl, by decide, ?_⟩
  rfl

/-- C2 (amended): `tick_timer` is a no-op (and emits nothing) when not
running; when running it decrements `current_time` by exactly 1 and invokes
`finish_cycle` on the decremented state if and only if the decremented
value is ≤ 0 — which coincides with reaching exactly 0 whenever
`current_time ≥ 1`, as in every reachable state. -/
theorem tick_timer_spec (s : TimerState) :
    (s.is_running = false → tick_timer s = (s, [])) ∧
    (s.is_running = true → ¬ s.current_time - 1 ≤ 0 →
      tick_timer s = ({ s with current_time := s.current_time - 1 }, [])) ∧
    (s.is_running = true → s.current_time - 1 ≤ 0 →
      tick_timer s = finish_cycle { s with current_time := s.current_time - 1 }) ∧
    (s.is_running = true →
      (notifyCount (tick_timer s).2 = 1 ↔ s.current_time - 1 ≤ 0)) ∧
    (s.is_running = true → 1 ≤ s.current_time →
      (notifyCount (tick_timer s).2 = 1 ↔ s.current_time - 1 = 0)) := by
  refine ⟨?_, ?_, ?_, ?_, ?_⟩
  · intro hr
    simp [tick_timer, hr]
  · intro hr hz
    simp [tick_timer, hr, hz]
  · intro hr hz
    simp [tick_timer, hr, hz]
  · intro hr
    constructor
    · intro hcount
      by_contra hz
      have heq : tick_timer s = ({ s with current_time := s.current_time - 1 }, []) := by
        simp [tick_timer, hr, hz]
      rw [heq] at hcount
      simp [notifyCount] at hcount
    · intro hz
      have heq : tick_timer s = finish_cycle { s with current_time := s.current_time - 1 } := by
        simp [tick_timer, hr, hz]
      rw [heq]
      exact notifyCount_finish _
  · intro hr h1
    constructor
    · intro hcount
      by_contra h0
      have hz : ¬ s.current_time - 1 ≤ 0 := by omega
      have heq : tick_timer s = ({ s with current_time := s.current_time - 1 }, []) := by
        simp [tick_timer, hr, hz]
      rw [heq] at hcount
      simp [notifyCount] at hcount
    · intro h0
      have hz : s.current_time - 1 ≤ 0 := by omega
      have heq : tick_timer s = finish_cycle { s with current_time := s.current_time - 1 } := by
        simp [tick_timer, hr, hz]
      rw [heq]
      exact notifyCount_finish _

/-- C2 amended-claim witness: on the paused initial state the tick is a
no-op with an empty trace. -/
theorem tick_timer_spec_witness :
    tick_timer (initState 25 5 4) = (initState 25 5 4, []) :=
  (tick_timer_spec (initState 25 5 4)).1 rfl

/-- C5: each `finish_cycle` call produces exactly one notification, with
the alarm started when the notification is emitted and stopped after the
dialog is acknowledged: the trace is always alarm-start, one single
notification, alarm-stop. -/
theorem finish_cycle_single_notification (s : TimerState) :
    notifyCount (finish_cycle s).2 = 1 ∧
    ∃ title msg, (finish_cycle s).2 =
      [Event.alarmStart, Event.notify title msg, Event.alarmStop] :=
  ⟨notifyCount_finish s, finish_cycle_trace s⟩

/-- C3: in every reachable state `1 ≤ current_cycle ≤ target_cycles`, and
completing the final break (`finish_cycle` in BREAK with
`current_cycle ≥ target_cycles`) resets `current_cycle` to 1. -/
theorem current_cycle_bounds {s : TimerState} (h : Reachable s) :
    (1 ≤ s.current_cycle ∧ s.current_cycle ≤ s.target_cycles) ∧
    (s.mode = Mode.BREAK → s.current_cycle ≥ s.target_cycles →
      (finish_cycle s).1.current_cycle = 1) := by
  obtain ⟨_, _, _, _, hc1, hc2, _, _, _⟩ := timerInv_of_reachable h
  refine ⟨⟨hc1, hc2⟩, ?_⟩
  intro hm hge
  simp [finish_cycle, hm, hge]

/-- C3 witness: the invariant at the default initial state. -/
theorem current_cycle_bounds_witness :
    1 ≤ (initState 25 5 4).current_cycle ∧
    (initState 25 5 4).current_cycle ≤ (initState 25 5 4).target_cycles :=
  (current_cycle_bounds
    (Reachable.init 25 5 4 (by decide) (by decide) (by decide))).1

/-- C4: in every reachable state `0 ≤ current_time ≤ total_time`. -/
theorem current_time_bounds {s : TimerState} (h : Reachable s) :
    0 ≤ s.current_time ∧ s.current_time ≤ s.total_time := by
  obtain ⟨_, _, _, _, _, _, _, hct0, hct1⟩ := timerInv_of_reachable h
  exact ⟨hct0, hct1⟩

/-- C4 witness: the invariant after one tick of the toggled initial
state. -/
theorem current_time_bounds_witness :
    0 ≤ (tick_timer (toggle_timer (initState 25 5 4))).1.current_time ∧
    (tick_timer (toggle_timer (initState 25 5 4))).1.current_time ≤
      (tick_timer (toggle_timer (initState 25 5 4))).1.total_time :=
  current_time_bounds
    (Reachable.tick (Reachable.toggle
      (Reachable.init 25 5 4 (by decide) (by decide) (by decide))))

/-- C6: an out-of-bound configure request (work minutes outside [1,120],
break minutes outside [1,60], target cycles outside [1,20]) is rejected
and leaves the state completely unchanged; in particular work minutes 121
is rejected. -/
theorem configure_rejects_out_of_bounds (s : TimerState) (t : Int) :
    ((t < 1 ∨ 120 < t) → set_work_time s t = s) ∧
    ((t < 1 ∨ 60 < t) → set_break_time s t = s) ∧
    ((t < 1 ∨ 20 < t) → set_total_cycles s t = s) ∧
    set_work_time s 121 = s := by
  refine ⟨?_, ?_, ?_, ?_⟩
  · intro h
    have hko : ¬ (1 ≤ t ∧ t ≤ 120) := by omega
    simp [set_work_time, hko]
  · intro h
    have hko : ¬ (1 ≤ t ∧ t ≤ 60) := by omega
    simp [set_break_time, hko]
  · intro h
    have hko : ¬ (1 ≤ t ∧ t ≤ 20) := by omega
    simp [set_total_cycles, hko]
  · have hko : ¬ ((1:Int) ≤ 121 ∧ (121:Int) ≤ 120) := by decide
    simp [set_work_time, hko]

/-- C6 witness: requesting 0 work minutes at the initial state changes
nothing. -/
theorem configure_rejects_out_of_bounds_witness :
    set_work_time (initState 25 5 4) 0 = initState 25 5 4 :=
  (configure_rejects_out_of_bounds (initState 25 5 4) 0).1 (Or.inl (by decide))

/-- C7 counterexample: with a 5-minute break configured and BREAK the
active mode, configuring work minutes to 10 (in-bound) and then resetting
reseeds from the break duration: the remaining time is 300 seconds, not
10 * 60 = 600. -/
theorem configure_reset_cross_mode :
    (1:Int) ≤ 10 ∧ (10:Int) ≤ 120 ∧
    (reset_timer (set_work_time breakModeState 10)).current_time = 300 ∧
    (reset_timer (set_work_time breakModeState 10)).current_time ≠ 10 * 60 := by
  decide

/-- C7 (amended): for an in-bound duration d, configuring the duration of
the currently active mode and then resetting yields
`current_time = total_time = d * 60` with `is_running = false`; configuring
the inactive mode's duration instead leaves `reset` reseeding from the
active mode's duration. -/
theorem configure_reset_roundtrip (s : TimerState) (d : Int) :
    (s.mode = Mode.WORK → 1 ≤ d → d ≤ 120 →
      (reset_timer (set_work_time s d)).current_time = d * 60 ∧
      (reset_timer (set_work_time s d)).total_time = d * 60 ∧
      (reset_timer (set_work_time s d)).is_running = false) ∧
    (s.mode = Mode.BREAK → 1 ≤ d → d ≤ 60 →
      (reset_timer (set_break_time s d)).current_time = d * 60 ∧
      (reset_timer (set_break_time s d)).total_time = d * 60 ∧
      (reset_timer (set_break_time s d)).is_running = false) := by
  constructor
  · intro hm h1 h2
    have hok : 1 ≤ d ∧ d ≤ 120 := ⟨h1, h2⟩
    simp [set_work_time, hok, hm, reset_timer]
  · intro hm h1 h2
    have hok : 1 ≤ d ∧ d ≤ 60 := ⟨h1, h2⟩
    simp [set_break_time, hok, hm, reset_timer]

/-- C7 amended-claim witness: work minutes 10 configured at the initial
WORK state, then reset. -/
theorem configure_reset_roundtrip_witness :
    (reset_timer (set_work_time (initState 25 5 4) 10)).current_time = 10 * 60 ∧
    (reset_timer (set_work_time (initState 25 5 4) 10)).total_time = 10 * 60 ∧
    (reset_timer (set_work_time (initState 25 5 4) 10)).is_running = false :=
  (configure_reset_roundtrip (initState 25 5 4) 10).1 rfl (by decide) (by decide)

/-- C8 counterexample: one tick of a running WORK state with one second
left crosses into BREAK while still running, and `current_time` jumps from
1 up to the full break duration 120 — the sequence of remaining times is
not non-increasing. -/
theorem tick_sequence_not_nonincreasing :
    lastSecondState.is_running = true ∧
    (tick_timer lastSecondState).1.is_running = true ∧
    lastSecondState.current_time < (tick_timer lastSecondState).1.current_time := by
  decide

/-- C8 (amended): along every tick sequence from a reachable state,
`current_time` is never negative; and every tick that does not cross zero
(no `finish_cycle`, empty trace) does not increase `current_time`, so the
remaining time is non-increasing between zero-crossings; at a crossing it
is re-seeded to the next segment's full duration. -/
theorem tick_sequence_bounds {s : TimerState} (h : Reachable s) (n : Nat) :
    0 ≤ (tickIter n s).current_time ∧
    ((tick_timer (tickIter n s)).2 = [] →
      (tick_timer (tickIter n s)).1.current_time ≤ (tickIter n s).current_time) := by
  obtain ⟨_, _, _, _, _, _, _, hct0, _⟩ :=
    timerInv_of_reachable (reachable_tickIter h n)
  refine ⟨hct0, ?_⟩
  intro hev
  by_cases hrun : (tickIter n s).is_running
  · by_cases hz : (tickIter n s).current_time - 1 ≤ 0
    · exfalso
      have heq : (tick_timer (tickIter n s)).2 =
          (finish_cycle { tickIter n s with
            current_time := (tickIter n s).current_time - 1 }).2 := by
        simp [tick_timer, hrun, hz]
      obtain ⟨t, m, htr⟩ := finish_cycle_trace
        { tickIter n s with current_time := (tickIter n s).current_time - 1 }
      rw [heq, htr] at hev
      exact List.cons_ne_nil _ _ hev
    · have heq : (tick_timer (tickIter n s)).1 =
          { tickIter n s with current_time := (tickIter n s).current_time - 1 } := by
        simp [tick_timer, hrun, hz]
      rw [heq]
      simp
  · have heq : (tick_timer (tickIter n s)).1 = tickIter n s := by
      simp [tick_timer, hrun]
    rw [heq]

/-- C8 amended-claim witness: the bounds after two ticks of the running
initial state. -/
theorem tick_sequence_bounds_witness :
    0 ≤ (tickIter 2 (toggle_timer (initState 25 5 4))).current_time ∧
    ((tick_timer (tickIter 2 (toggle_timer (initState 25 5 4)))).2 = [] →
      (tick_timer (tickIter 2 (toggle_timer (initState 25 5 4)))).1.current_time ≤
        (tickIter 2 (toggle_timer (initState 25 5 4))).current_time) :=
  tick_sequence_bounds
    (Reachable.toggle (Reachable.init 25 5 4 (by decide) (by decide) (by decide))) 2

/-- C9: `toggle_timer` negates `is_running` and changes no other field; in
particular on a paused timer it starts the timer without altering the
remaining time. -/
theorem toggle_timer_frame (s : TimerState) :
    (toggle_timer s).is_running = !s.is_running ∧
    (toggle_timer s).mode = s.mode ∧
    (toggle_timer s).current_time = s.current_time ∧
    (toggle_timer s).total_time = s.total_time ∧
    (toggle_timer s).current_cycle = s.current_cycle ∧
    (toggle_timer s).target_cycles = s.target_cycles ∧
    (toggle_timer s).work_duration = s.work_duration ∧
    (toggle_timer s).break_duration = s.break_duration ∧
    (s.is_running = false →
      (toggle_timer s).is_running = true ∧
      (toggle_timer s).current_time = s.current_time) := by
  refine ⟨rfl, rfl, rfl, rfl, rfl, rfl, rfl, rfl, ?_⟩
  intro h
  simp [toggle_timer, h]

/-- C9 witness: toggling the paused initial state. -/
theorem toggle_timer_frame_witness :
    (toggle_timer (initState 25 5 4)).is_running = true ∧
    (toggle_timer (initState 25 5 4)).current_time = (initState 25 5 4).current_time :=
  (toggle_timer_frame (initState 25 5 4)).2.2.2.2.2.2.2.2 rfl

/-- C10: whenever a target-cycles configuration is accepted (new value in
[1, 20]), `current_cycle` is unconditionally set back to 1, even when the
new target is at least the current cycle count. -/
theorem set_total_cycles_resets_current (s : TimerState) (c : Int)
    (h1 : 1 ≤ c) (h2 : c ≤ 20) :
    (set_total_cycles s c).current_cycle = 1 ∧
    (set_total_cycles s c).target_cycles = c := by
  have hok : 1 ≤ c ∧ c ≤ 20 := ⟨h1, h2⟩
  simp [set_total_cycles, hok]

/-- C10 witness: raising the target from 4 to 5 while in cycle 3 still
resets the cycle count to 1. -/
theorem set_total_cycles_resets_current_witness :
    (set_total_cycles midPlanState 5).current_cycle = 1 ∧
    (set_total_cycles midPlanState 5).target_cycles = 5 :=
  set_total_cycles_resets_current midPlanState 5 (by decide) (by decide)
